import Mathlib

/-!
Verification of the pipeline-binary loader of this PAL fork: a shallow
embedding of the section-layout planner (`src/inc/util/palSectionMemoryMap.h`,
`src/src/core/hw/gfxip/pipelineGpuMapping.h`), of `PipelineUploader::Begin`
and the introspection queries (`src/src/core/hw/gfxip/pipeline.cpp`), and of
the gfx9 compute pipeline (`src/src/core/hw/gfxip/gfx9/gfx9ComputePipeline.cpp`).
Machine integers are modelled as `Nat`, with explicit `% 2 ^ w` where the
source truncates (e.g. `LowPart`).
-/

namespace Pal

/-- Modelled from the spec: `round_up(value, alignment)` — the source calls
`Util::Pow2Align`, whose implementation (`palInlineFuncs.h`) is not among the
provided sources.  For a positive alignment this rounds `v` up to the next
multiple of `a`; for alignment `0` PAL's unsigned mask form
`(v + a - 1) & ~(a - 1)` evaluates to `0`, which is reproduced here. -/
def pow2Align (v a : Nat) : Nat :=
  if a = 0 then 0 else a * ((v + a - 1) / a)

theorem dvd_pow2Align (v a : Nat) : a ∣ pow2Align v a := by
  unfold pow2Align
  split
  · simp
  · exact Dvd.intro _ rfl

theorem le_pow2Align (v a : Nat) (h : 0 < a) : v ≤ pow2Align v a := by
  unfold pow2Align
  rw [if_neg (Nat.pos_iff_ne_zero.mp h)]
  have hd := Nat.div_add_mod (v + a - 1) a
  have hm : (v + a - 1) % a < a := Nat.mod_lt _ h
  omega

theorem if_gt_eq_max (a b : Nat) : (if b > a then b else a) = max a b := by
  rcases le_or_lt b a with h | h
  · rw [if_neg (by omega), Nat.max_eq_left h]
  · rw [if_pos h, Nat.max_eq_right (le_of_lt h)]

/-- One ELF section as seen by the layout planner: its section-table index,
its `sh_addralign`, and its data size. -/
structure SectionDesc where
  id : Nat
  addralign : Nat
  dataSize : Nat
deriving DecidableEq, Repr

/-- `Util::SectionInfo` (palSectionMemoryMap.h): the assigned GPU-relative
offset of one section. -/
structure SectionInfo where
  id : Nat
  offset : Nat
deriving DecidableEq, Repr

/-- State of `Util::SectionMemoryMap` (palSectionMemoryMap.h) and of
`Pal::PipelineSectionSegmentMapping` (pipelineGpuMapping.h); both classes
contain the identical `AddSection` layout logic. -/
structure SectionMemoryMap where
  alignment : Nat
  size : Nat
  sections : List SectionInfo
deriving DecidableEq, Repr

/-- `SectionMemoryMap::AddSection` (palSectionMemoryMap.h lines 58-71):
`info.offset = Pow2Align(m_size, alignment); m_size = info.offset + dataSize;`
and the running alignment is raised when the section's alignment is larger. -/
def SectionMemoryMap.addSection (m : SectionMemoryMap) (s : SectionDesc) :
    SectionMemoryMap :=
  let offset := pow2Align m.size s.addralign
  { alignment := if s.addralign > m.alignment then s.addralign else m.alignment
    size := offset + s.dataSize
    sections := m.sections ++ [⟨s.id, offset⟩] }

def emptySectionMemoryMap : SectionMemoryMap := ⟨0, 0, []⟩

/-- Adding an ordered list of sections to the planner, in source order. -/
def SectionMemoryMap.addSections (m : SectionMemoryMap) (l : List SectionDesc) :
    SectionMemoryMap :=
  l.foldl SectionMemoryMap.addSection m

/-- The (offset, section) pairs that `AddSection` assigns when the sections of
`l` are added in order, starting from running size `sz`. -/
def layoutPairs (sz : Nat) : List SectionDesc → List (Nat × SectionDesc)
  | [] => []
  | s :: rest =>
    let off := pow2Align sz s.addralign
    (off, s) :: layoutPairs (off + s.dataSize) rest

theorem addSection_size (m : SectionMemoryMap) (s : SectionDesc) :
    (m.addSection s).size = pow2Align m.size s.addralign + s.dataSize := rfl

theorem addSections_sections (m : SectionMemoryMap) (l : List SectionDesc) :
    (m.addSections l).sections
      = m.sections
        ++ (layoutPairs m.size l).map (fun p => (⟨p.2.id, p.1⟩ : SectionInfo)) := by
  induction l generalizing m with
  | nil => simp [SectionMemoryMap.addSections, layoutPairs]
  | cons s rest ih =>
    have h1 : m.addSections (s :: rest) = (m.addSection s).addSections rest := rfl
    rw [h1, ih, layoutPairs]
    simp [SectionMemoryMap.addSection]

/-- The planner's running size after laying out `l` starting from size `sz`. -/
def layoutEnd (sz : Nat) : List SectionDesc → Nat
  | [] => sz
  | s :: rest => layoutEnd (pow2Align sz s.addralign + s.dataSize) rest

theorem addSections_size_eq_layoutEnd (m : SectionMemoryMap) (l : List SectionDesc) :
    (m.addSections l).size = layoutEnd m.size l := by
  induction l generalizing m with
  | nil => rfl
  | cons s rest ih =>
    have h1 : m.addSections (s :: rest) = (m.addSection s).addSections rest := rfl
    rw [h1, ih, addSection_size, layoutEnd]

theorem layoutEnd_eq_getLast (sz : Nat) (l : List SectionDesc) :
    layoutEnd sz l
      = ((layoutPairs sz l).getLast?.map fun p => p.1 + p.2.dataSize).getD sz := by
  induction l generalizing sz with
  | nil => rfl
  | cons s rest ih =>
    rw [layoutEnd, ih]
    cases rest with
    | nil => simp [layoutPairs]
    | cons t r2 =>
      simp only [layoutPairs, List.getLast?_cons_cons]
      rcases hlast : ((pow2Align (pow2Align sz s.addralign + s.dataSize) t.addralign, t)
          :: layoutPairs (pow2Align (pow2Align sz s.addralign + s.dataSize) t.addralign
              + t.dataSize) r2).getLast? with _ | q
      · exact absurd hlast (by simp)
      · simp [hlast]

theorem addSections_size (m : SectionMemoryMap) (l : List SectionDesc) :
    (m.addSections l).size
      = ((layoutPairs m.size l).getLast?.map fun p => p.1 + p.2.dataSize).getD m.size := by
  rw [addSections_size_eq_layoutEnd, layoutEnd_eq_getLast]

theorem addSections_alignment (m : SectionMemoryMap) (l : List SectionDesc) :
    (m.addSections l).alignment
      = l.foldl (fun a s => max a s.addralign) m.alignment := by
  induction l generalizing m with
  | nil => rfl
  | cons s rest ih =>
    have h1 : m.addSections (s :: rest) = (m.addSection s).addSections rest := rfl
    rw [h1, ih]
    have h2 : (m.addSection s).alignment = max m.alignment s.addralign := by
      rw [show (m.addSection s).alignment
            = if s.addralign > m.alignment then s.addralign else m.alignment from rfl]
      exact if_gt_eq_max _ _
    rw [h2]
    rfl

theorem layoutPairs_dvd (sz : Nat) (l : List SectionDesc) :
    ∀ p ∈ layoutPairs sz l, p.2.addralign ∣ p.1 := by
  induction l generalizing sz with
  | nil => simp [layoutPairs]
  | cons s rest ih =>
    intro p hp
    rw [layoutPairs] at hp
    rcases List.mem_cons.mp hp with h | h
    · subst h
      exact dvd_pow2Align _ _
    · exact ih _ _ h

theorem layoutPairs_chain (sz : Nat) (l : List SectionDesc)
    (h : ∀ s ∈ l, 0 < s.addralign) :
    List.Chain' (fun p q => p.1 + p.2.dataSize ≤ q.1) (layoutPairs sz l) := by
  induction l generalizing sz with
  | nil => simp [layoutPairs]
  | cons s rest ih =>
    rw [layoutPairs]
    refine List.chain'_cons'.mpr ⟨?_, ?_⟩
    · intro q hq
      cases rest with
      | nil => simp [layoutPairs] at hq
      | cons t r2 =>
        rw [layoutPairs] at hq
        simp at hq
        subst hq
        exact le_pow2Align _ _ (h t (by simp))
    · exact ih _ (fun t ht => h t (List.mem_cons_of_mem _ ht))

theorem layoutPairs_map_snd (sz : Nat) (l : List SectionDesc) :
    (layoutPairs sz l).map Prod.snd = l := by
  induction l generalizing sz with
  | nil => rfl
  | cons s rest ih => rw [layoutPairs]; simp [ih]

/-- C2 (amended: all section alignments nonzero): the sections stored by the
planner carry exactly the offsets of `layoutPairs`; each assigned offset is a
multiple of its section's alignment; each section's offset is at least the
previous section's offset plus the previous section's size; the planner's
reported size equals the last offset plus the last size (its starting size,
`0`, when empty); and the planner's reported alignment is the maximum
alignment of its member sections. -/
theorem section_layout_correct (l : List SectionDesc)
    (h : ∀ s ∈ l, 0 < s.addralign) :
    (emptySectionMemoryMap.addSections l).sections
        = (layoutPairs 0 l).map (fun p => (⟨p.2.id, p.1⟩ : SectionInfo)) ∧
    (∀ p ∈ layoutPairs 0 l, p.2.addralign ∣ p.1) ∧
    List.Chain' (fun p q => p.1 + p.2.dataSize ≤ q.1) (layoutPairs 0 l) ∧
    (emptySectionMemoryMap.addSections l).size
        = ((layoutPairs 0 l).getLast?.map fun p => p.1 + p.2.dataSize).getD 0 ∧
    (emptySectionMemoryMap.addSections l).alignment
        = l.foldl (fun a s => max a s.addralign) 0 := by
  refine ⟨?_, ?_, ?_, ?_, ?_⟩
  · have := addSections_sections emptySectionMemoryMap l
    simpa [emptySectionMemoryMap] using this
  · exact layoutPairs_dvd 0 l
  · exact layoutPairs_chain 0 l h
  · have := addSections_size emptySectionMemoryMap l
    simpa [emptySectionMemoryMap] using this
  · have := addSections_alignment emptySectionMemoryMap l
    simpa [emptySectionMemoryMap] using this

/-- C2 witness: the amended theorem applied to two concrete sections with
alignments 4 and 8 and sizes 6 and 2. -/
theorem section_layout_correct_witness :
    List.Chain' (fun p q => p.1 + p.2.dataSize ≤ q.1)
      (layoutPairs 0 [⟨0, 4, 6⟩, ⟨1, 8, 2⟩]) :=
  (section_layout_correct [⟨0, 4, 6⟩, ⟨1, 8, 2⟩] (by decide)).2.2.1

/-- C2 counterexample: with an alignment of `0` (which ELF permits for
`sh_addralign`) PAL's `Pow2Align` mask form returns offset `0`, so the second
section's offset falls below the first section's end — the claim's
monotonicity conjunct fails for the section list
`[{id 0, align 1, size 4}, {id 1, align 0, size 4}]`. -/
theorem section_layout_zero_align_cex :
    ¬ List.Chain' (fun p q => p.1 + p.2.dataSize ≤ q.1)
        (layoutPairs 0 [⟨0, 1, 4⟩, ⟨1, 0, 4⟩]) := by
  intro h
  have h2 : layoutPairs 0 [(⟨0, 1, 4⟩ : SectionDesc), ⟨1, 0, 4⟩]
      = [(0, ⟨0, 1, 4⟩), (0, ⟨1, 0, 4⟩)] := rfl
  rw [h2] at h
  exact absurd (List.chain'_cons.mp h).1 (by decide)

/-- One entry of the `m_perfDataInfo` array (`PerfDataInfo`), as populated by
`PipelineUploader::Begin`. -/
structure PerfDataInfo where
  sizeInBytes : Nat
  cpuOffset : Nat
  gpuVirtAddr : Nat
deriving DecidableEq, Repr

/-- pipeline.cpp lines 634-639: when any context/SH registers are reserved,
round the running size up to 4 bytes and add 8 bytes
(`RegisterEntryBytes = sizeof(uint32) << 1`) per register pair. -/
def sizeWithRegisters (layoutSize ctxRegisterCount shRegisterCount : Nat) : Nat :=
  if ctxRegisterCount + shRegisterCount > 0 then
    pow2Align layoutSize 4 + 8 * (ctxRegisterCount + shRegisterCount)
  else layoutSize

/-- pipeline.cpp lines 641-654: accumulate every hardware stage's
performance-data buffer, recording size and CPU offset for nonzero stages.
The two running counters `createInfo.size` and `performanceDataOffset` start
equal and advance in lockstep, so a single accumulator mirrors both. -/
def perfStep (acc : Nat × List PerfDataInfo) (b : Nat) : Nat × List PerfDataInfo :=
  if b ≠ 0 then (acc.1 + b, acc.2 ++ [⟨b, acc.1, 0⟩])
  else (acc.1, acc.2 ++ [⟨0, 0, 0⟩])

def accumPerf (start : Nat) (perfSizes : List Nat) : Nat × List PerfDataInfo :=
  perfSizes.foldl perfStep (start, [])

/-- pipeline.cpp lines 656-667: the allocated size is the accumulated size
clamped up to `Pow2Align(codeLength, ShaderICacheLineSize) +
shaderPrefetchBytes` (`createInfo.size = Max(createInfo.size, minSafeSize)`).
Cache-line size and prefetch distance are parameters here because their
concrete values come from headers outside the provided sources. -/
def uploaderGpuMemSize (layoutSize ctx sh : Nat) (perfSizes : List Nat)
    (codeLength cacheLineSize prefetchBytes : Nat) : Nat :=
  max (accumPerf (sizeWithRegisters layoutSize ctx sh) perfSizes).1
      (pow2Align codeLength cacheLineSize + prefetchBytes)

theorem perfStep_fst (acc : Nat × List PerfDataInfo) (b : Nat) :
    (perfStep acc b).1 = acc.1 + b := by
  unfold perfStep
  split
  · rfl
  · simp_all

theorem accumPerf_foldl_fst (l : List Nat) (p : Nat × List PerfDataInfo) :
    (l.foldl perfStep p).1 = p.1 + l.sum := by
  induction l generalizing p with
  | nil => simp
  | cons b rest ih =>
    rw [List.foldl_cons, ih, perfStep_fst, List.sum_cons]
    omega

theorem accumPerf_fst (s : Nat) (l : List Nat) :
    (accumPerf s l).1 = s + l.sum :=
  accumPerf_foldl_fst l (s, [])

/-- C1: after a successful `PipelineUploader::Begin`, the GPU allocation size
equals the section-layout size — rounded up to 4 bytes and increased by 8
bytes per reserved context/SH register pair when any registers are reserved —
plus the sum of every hardware stage's performance-buffer size, clamped up to
`round_up(codeLength, cacheLineSize) + prefetchBytes`; in particular, for
every combination of register counts and performance-buffer sizes the
allocated size is at least `round_up(codeLength, cacheLineSize) +
prefetchBytes`. -/
theorem uploader_alloc_size (layoutSize ctx sh : Nat) (perfSizes : List Nat)
    (codeLength cacheLineSize prefetchBytes : Nat) :
    uploaderGpuMemSize layoutSize ctx sh perfSizes codeLength cacheLineSize prefetchBytes
      = max ((if ctx + sh > 0 then pow2Align layoutSize 4 + 8 * (ctx + sh)
              else layoutSize) + perfSizes.sum)
            (pow2Align codeLength cacheLineSize + prefetchBytes) ∧
    pow2Align codeLength cacheLineSize + prefetchBytes
      ≤ uploaderGpuMemSize layoutSize ctx sh perfSizes codeLength cacheLineSize
          prefetchBytes := by
  constructor
  · unfold uploaderGpuMemSize
    rw [accumPerf_fst]
    rfl
  · exact le_max_right _ _

/-- Mapped allocation memory as a total function from allocation-relative
byte offsets to byte values; `memset` overwrites `n` bytes from `off`. -/
def memset (mem : Nat → Nat) (off n v : Nat) : Nat → Nat :=
  fun i => if off ≤ i ∧ i < off + n then v else mem i

/-- One iteration of the final loop of `PipelineUploader::Begin`
(pipeline.cpp lines 786-795): for a stage with a nonzero performance buffer,
record `gpuVirtAddr = LowPart(gpuVirtAddr + offset)` — where the local
`gpuVirtAddr` was advanced to `base + mapping.GetSize()` on line 759 — and
zero the buffer at its CPU offset in the mapped allocation. -/
def finalizePerfStep (baseGpuVirtAddr layoutSize : Nat)
    (st : (Nat → Nat) × List PerfDataInfo) (info : PerfDataInfo) :
    (Nat → Nat) × List PerfDataInfo :=
  if info.sizeInBytes ≠ 0 then
    (memset st.1 info.cpuOffset info.sizeInBytes 0,
     st.2 ++ [{ info with
       gpuVirtAddr := (baseGpuVirtAddr + layoutSize + info.cpuOffset) % 2 ^ 32 }])
  else (st.1, st.2 ++ [info])

def finalizePerf (baseGpuVirtAddr layoutSize : Nat) (mem : Nat → Nat)
    (infos : List PerfDataInfo) : (Nat → Nat) × List PerfDataInfo :=
  infos.foldl (finalizePerfStep baseGpuVirtAddr layoutSize) (mem, [])

/-- C3: evaluation of `PipelineUploader::Begin`'s performance-buffer
finalization at a failing input.  Section-layout size 16, no reserved
registers, one stage with a 4-byte performance buffer, allocation base GPU
virtual address 4096, mapped memory initially 171 everywhere.  The stage's
CPU offset is 16 and the 4 buffer bytes there are zeroed (the claim's first
conjunct holds), but the recorded GPU virtual address is
`base + layoutSize + cpuOffset = 4128`, not `base + cpuOffset = 4112` as the
claim states: the code adds `mapping.GetSize()` a second time on top of a CPU
offset that already lies past the section payload. -/
theorem perf_gpu_va_mismatch :
    (accumPerf (sizeWithRegisters 16 0 0) [4]).2
        = [⟨4, 16, 0⟩] ∧
    ((finalizePerf 4096 16 (fun _ => 171)
        (accumPerf (sizeWithRegisters 16 0 0) [4]).2).2.map PerfDataInfo.gpuVirtAddr)
        = [4128] ∧
    (4128 : Nat) ≠ 4096 + 16 ∧
    (finalizePerf 4096 16 (fun _ => 171)
        (accumPerf (sizeWithRegisters 16 0 0) [4]).2).1 16 = 0 ∧
    (finalizePerf 4096 16 (fun _ => 171)
        (accumPerf (sizeWithRegisters 16 0 0) [4]).2).1 17 = 0 ∧
    (finalizePerf 4096 16 (fun _ => 171)
        (accumPerf (sizeWithRegisters 16 0 0) [4]).2).1 18 = 0 ∧
    (finalizePerf 4096 16 (fun _ => 171)
        (accumPerf (sizeWithRegisters 16 0 0) [4]).2).1 19 = 0 ∧
    (finalizePerf 4096 16 (fun _ => 171)
        (accumPerf (sizeWithRegisters 16 0 0) [4]).2).1 15 = 171 ∧
    (finalizePerf 4096 16 (fun _ => 171)
        (accumPerf (sizeWithRegisters 16 0 0) [4]).2).1 20 = 171 := by
  refine ⟨rfl, rfl, by decide, rfl, rfl, rfl, rfl, rfl, rfl⟩

/-- Modelled from the spec: the gfx9 register addresses and ABI user-data
sentinels used by `SetupSignatureFromElf` come from headers outside the
provided sources (gfx9 register headers, `palPipelineAbi.h`, `gfx9Chip.h`);
the spec says exact addresses and the sentinel enumeration are
generation-specific externals, so representative distinct values are fixed
here.  The user-data registers form the fixed contiguous range
`mmCOMPUTE_USER_DATA_0 .. mmCOMPUTE_USER_DATA_15`. -/
def mmCOMPUTE_USER_DATA_0 : Nat := 0x2E40

def mmCOMPUTE_USER_DATA_15 : Nat := 0x2E4F

def InternalTblStartReg : Nat := 0

def ConstBufTblStartReg : Nat := 1

def FastUserDataStartReg : Nat := 2

/-- Modelled from the spec: the signature maps up to 16 user-data slots. -/
def MaxUserDataEntries : Nat := 16

def UserDataNotMapped : Nat := 0

def NoUserDataSpilling : Nat := 0xFFFF

def UserDataMappingGlobalTable : Nat := 0x10000000

def UserDataMappingPerShaderTable : Nat := 0x10000001

def UserDataMappingSpillTable : Nat := 0x10000002

def UserDataMappingBaseVertex : Nat := 0x10000003

def UserDataMappingBaseInstance : Nat := 0x10000004

def UserDataMappingDrawIndex : Nat := 0x10000005

def UserDataMappingWorkgroup : Nat := 0x10000006

def UserDataMappingEsGsLdsSize : Nat := 0x10000007

def UserDataMappingGdsRange : Nat := 0x10000008

def UserDataMappingBaseIndex : Nat := 0x10000009

def UserDataMappingLog2IndexSize : Nat := 0x1000000A

def UserDataMappingVertexBufferTable : Nat := 0x1000000B

def UserDataMappingStreamOutTable : Nat := 0x1000000C

def UserDataMappingPerShaderPerfData : Nat := 0x1000000D

/-- The fields of `ComputePipelineSignature` populated by
`SetupSignatureFromElf`; `mappedEntry` is the per-slot table of the stage's
`UserDataEntryMap`. -/
structure ComputeShaderSignature where
  firstUserSgprRegAddr : Nat
  userSgprCount : Nat
  mappedEntry : List Nat
  spillTableRegAddr : Nat
  numWorkGroupsRegAddr : Nat
  perfDataAddr : Nat
  spillThreshold : Nat
  userDataLimit : Nat
deriving DecidableEq, Repr

/-- `NullCsSignature` (gfx9ComputePipeline.cpp lines 41-50): the signature of
an unbound compute pipeline, `memcpy`-ed into `m_signature` by the
constructor. -/
def nullCsSignature : ComputeShaderSignature :=
  { firstUserSgprRegAddr := 0
    userSgprCount := 0
    mappedEntry := List.replicate 16 0
    spillTableRegAddr := UserDataNotMapped
    numWorkGroupsRegAddr := UserDataNotMapped
    perfDataAddr := UserDataNotMapped
    spillThreshold := NoUserDataSpilling
    userDataLimit := 0 }

/-- Extraction state: the signature under construction, the local
`entryToRegAddr[MaxUserDataEntries]` array, the `m_perfDataInfo[Cs].regOffset`
side effect, and the indices of every attempted array write (used to state
the in-bounds claims; `List.set` itself ignores an out-of-range index). -/
structure SigExtractState where
  sig : ComputeShaderSignature
  entryToRegAddr : List Nat
  perfDataRegOffset : Nat
  mappedEntryWrites : List Nat
  entryToRegWrites : List Nat
deriving DecidableEq, Repr

/-- One iteration of the user-SGPR scan loop of
`ComputePipeline::SetupSignatureFromElf` (gfx9ComputePipeline.cpp lines
86-142) at register `offset`; `regs` models the decoded `RegisterVector`
(`HasEntry`).  The `uint8` casts of `offset - firstUserSgprRegAddr` and of
`userSgprId + 1` are two's-complement values modulo 256.  Branches that only
assert (`GlobalTable`, `PerShaderTable`, `GdsRange`, graphics-only sentinels,
unrecognized values) do not change state in release builds. -/
def sigScanStep (regs : List (Nat × Nat)) (st : SigExtractState) (offset : Nat) :
    SigExtractState :=
  match regs.lookup offset with
  | none => st
  | some value =>
    if value < MaxUserDataEntries then
      let userSgprId := (((offset : Int) - (st.sig.firstUserSgprRegAddr : Int)) % 256).toNat
      { st with
        entryToRegAddr := st.entryToRegAddr.set value offset
        sig := { st.sig with
          mappedEntry := st.sig.mappedEntry.set userSgprId (value % 256)
          userSgprCount := max ((userSgprId + 1) % 256) st.sig.userSgprCount }
        mappedEntryWrites := st.mappedEntryWrites ++ [userSgprId]
        entryToRegWrites := st.entryToRegWrites ++ [value] }
    else if value = UserDataMappingGlobalTable then st
    else if value = UserDataMappingPerShaderTable then st
    else if value = UserDataMappingSpillTable then
      { st with sig := { st.sig with spillTableRegAddr := offset % 65536 } }
    else if value = UserDataMappingWorkgroup then
      { st with sig := { st.sig with numWorkGroupsRegAddr := offset % 65536 } }
    else if value = UserDataMappingGdsRange then st
    else if value = UserDataMappingPerShaderPerfData then
      { st with
        sig := { st.sig with perfDataAddr := offset }
        perfDataRegOffset := offset }
    else st

/-- The scanned register range, in loop order. -/
def userDataRegAddrs : List Nat :=
  (List.range 16).map fun i => mmCOMPUTE_USER_DATA_0 + i

/-- The spill-threshold / user-data-limit entries of the pipeline metadata
(`CodeObjectMetadata`), `none` when `hasEntry` is clear. -/
structure CodeObjectMetadataSig where
  spillThreshold : Option Nat
  userDataLimit : Option Nat
deriving DecidableEq, Repr

/-- `ComputePipeline::SetupSignatureFromElf` (gfx9ComputePipeline.cpp lines
79-172), starting from the constructor state `NullCsSignature`: set
`firstUserSgprRegAddr`, scan the 16 user-data registers, then read the
spill-threshold and user-data-limit metadata scalars (`uint16` casts). -/
def setupSignatureFromElf (metadata : CodeObjectMetadataSig)
    (regs : List (Nat × Nat)) : SigExtractState :=
  let st0 : SigExtractState :=
    { sig := { nullCsSignature with
        firstUserSgprRegAddr := mmCOMPUTE_USER_DATA_0 + FastUserDataStartReg }
      entryToRegAddr := List.replicate MaxUserDataEntries 0
      perfDataRegOffset := UserDataNotMapped
      mappedEntryWrites := []
      entryToRegWrites := [] }
  let st1 := userDataRegAddrs.foldl (sigScanStep regs) st0
  let st2 :=
    match metadata.spillThreshold with
    | some v => { st1 with sig := { st1.sig with spillThreshold := v % 65536 } }
    | none => st1
  match metadata.userDataLimit with
  | some v => { st2 with sig := { st2.sig with userDataLimit := v % 65536 } }
  | none => st2

theorem sigScanStep_no_entry (regs : List (Nat × Nat)) (st : SigExtractState)
    (offset : Nat) (h : regs.lookup offset = none) :
    sigScanStep regs st offset = st := by
  simp only [sigScanStep, h]

theorem sigScan_foldl_no_entry (regs : List (Nat × Nat)) (offs : List Nat)
    (h : ∀ o ∈ offs, regs.lookup o = none) :
    ∀ st, offs.foldl (sigScanStep regs) st = st := by
  induction offs with
  | nil => intro st; rfl
  | cons o rest ih =>
    intro st
    rw [List.foldl_cons, sigScanStep_no_entry regs st o (h o (by simp))]
    exact ih (fun x hx => h x (List.mem_cons_of_mem _ hx)) st

/-- C5 counterexample: a register-value list mapping ordinals {0, 1, 2} to
the DISTINCT user-data slots 0, 1 and 3 (register offsets 0x2E42, 0x2E43,
0x2E45) yields `userSgprCount = 4`, because the count tracks the highest
mapped slot index plus one, not the number of mapped ordinals — the claim's
`userSgprCount == 3` fails. -/
theorem signature_count_cex :
    (setupSignatureFromElf ⟨none, none⟩
        [(0x2E42, 0), (0x2E43, 1), (0x2E45, 2)]).sig.userSgprCount = 4 ∧
    ¬ (setupSignatureFromElf ⟨none, none⟩
        [(0x2E42, 0), (0x2E43, 1), (0x2E45, 2)]).sig.userSgprCount = 3 := by
  decide

/-- C5 (amended): (a) running the extractor on a register-value list with no
entries anywhere in the user-data register range, with metadata carrying
neither a spill-threshold nor a user-data-limit entry, yields
`userSgprCount = 0` and every optional signature field (spill table,
workgroup count, performance-data address, spill threshold, entry limit) at
its not-mapped/default sentinel; (b) running it on the list mapping ordinals
{0, 1, 2} one-to-one onto the first three fast user-data slots yields
`userSgprCount = 3`, and for each ordinal `i` the register slot recorded in
`entryToRegAddr` round-trips through `mappedEntry` back to `i`. -/
theorem signature_extraction_correct :
    (∀ (metadata : CodeObjectMetadataSig) (regs : List (Nat × Nat)),
      (∀ o ∈ userDataRegAddrs, regs.lookup o = none) →
      metadata.spillThreshold = none →
      metadata.userDataLimit = none →
      (setupSignatureFromElf metadata regs).sig.userSgprCount = 0 ∧
      (setupSignatureFromElf metadata regs).sig.spillTableRegAddr
          = UserDataNotMapped ∧
      (setupSignatureFromElf metadata regs).sig.numWorkGroupsRegAddr
          = UserDataNotMapped ∧
      (setupSignatureFromElf metadata regs).sig.perfDataAddr
          = UserDataNotMapped ∧
      (setupSignatureFromElf metadata regs).sig.spillThreshold
          = NoUserDataSpilling ∧
      (setupSignatureFromElf metadata regs).sig.userDataLimit = 0) ∧
    ((setupSignatureFromElf ⟨none, none⟩
        [(0x2E42, 0), (0x2E43, 1), (0x2E44, 2)]).sig.userSgprCount = 3 ∧
     ∀ i < 3,
       (setupSignatureFromElf ⟨none, none⟩
           [(0x2E42, 0), (0x2E43, 1), (0x2E44, 2)]).sig.mappedEntry.getD
         ((setupSignatureFromElf ⟨none, none⟩
             [(0x2E42, 0), (0x2E43, 1), (0x2E44, 2)]).entryToRegAddr.getD i 0
           - (setupSignatureFromElf ⟨none, none⟩
               [(0x2E42, 0), (0x2E43, 1), (0x2E44, 2)]).sig.firstUserSgprRegAddr)
         99 = i) := by
  constructor
  · intro metadata regs h hs hu
    rcases metadata with ⟨sp, ul⟩
    cases sp with
    | none =>
      cases ul with
      | none =>
        simp only [setupSignatureFromElf, sigScan_foldl_no_entry regs userDataRegAddrs h]
        refine ⟨rfl, rfl, rfl, rfl, rfl, rfl⟩
      | some v => exact absurd hu (by simp)
    | some v => exact absurd hs (by simp)
  · exact ⟨by decide, by decide⟩

/-- C5 witness: the amended theorem applied to the empty register list (part
a) and the concrete {0,1,2} mapping (part b). -/
theorem signature_extraction_correct_witness :
    (setupSignatureFromElf ⟨none, none⟩ []).sig.userSgprCount = 0 ∧
    (setupSignatureFromElf ⟨none, none⟩
        [(0x2E42, 0), (0x2E43, 1), (0x2E44, 2)]).sig.userSgprCount = 3 :=
  ⟨(signature_extraction_correct.1 ⟨none, none⟩ [] (by
      intro o _
      rfl) rfl rfl).1,
    signature_extraction_correct.2.1⟩

theorem sigScanStep_bounds (regs : List (Nat × Nat))
    (hreg : ∀ o v, regs.lookup o = some v → v < MaxUserDataEntries →
      mmCOMPUTE_USER_DATA_0 + FastUserDataStartReg ≤ o)
    (st : SigExtractState) (o : Nat)
    (ho : o ≤ mmCOMPUTE_USER_DATA_15)
    (h1 : st.sig.firstUserSgprRegAddr = mmCOMPUTE_USER_DATA_0 + FastUserDataStartReg)
    (h2 : ∀ i ∈ st.entryToRegWrites, i < MaxUserDataEntries)
    (h3 : ∀ i ∈ st.mappedEntryWrites, i < 16)
    (h4 : st.sig.userSgprCount ≤ 16) :
    (sigScanStep regs st o).sig.firstUserSgprRegAddr
        = mmCOMPUTE_USER_DATA_0 + FastUserDataStartReg ∧
    (∀ i ∈ (sigScanStep regs st o).entryToRegWrites, i < MaxUserDataEntries) ∧
    (∀ i ∈ (sigScanStep regs st o).mappedEntryWrites, i < 16) ∧
    (sigScanStep regs st o).sig.userSgprCount ≤ 16 := by
  have c0 : mmCOMPUTE_USER_DATA_0 = 0x2E40 := rfl
  have c15 : mmCOMPUTE_USER_DATA_15 = 0x2E4F := rfl
  have cf : FastUserDataStartReg = 2 := rfl
  cases hl : regs.lookup o with
  | none =>
    rw [sigScanStep_no_entry regs st o hl]
    exact ⟨h1, h2, h3, h4⟩
  | some v =>
    simp only [sigScanStep, hl]
    by_cases hv : v < MaxUserDataEntries
    · have hge : mmCOMPUTE_USER_DATA_0 + FastUserDataStartReg ≤ o := hreg o v hl hv
      have hid : (((o : Int) - (st.sig.firstUserSgprRegAddr : Int)) % 256).toNat
          = o - (mmCOMPUTE_USER_DATA_0 + FastUserDataStartReg) := by
        rw [h1]
        rw [Int.emod_eq_of_lt (by omega) (by omega)]
        omega
      have hidle : (((o : Int) - (st.sig.firstUserSgprRegAddr : Int)) % 256).toNat ≤ 13 := by
        rw [hid]; omega
      simp only [if_pos hv]
      refine ⟨h1, ?_, ?_, ?_⟩
      · intro i hi
        rcases List.mem_append.mp hi with hmem | hmem
        · exact h2 i hmem
        · rw [List.mem_singleton] at hmem
          subst hmem
          exact hv
      · intro i hi
        rcases List.mem_append.mp hi with hmem | hmem
        · exact h3 i hmem
        · rw [List.mem_singleton] at hmem
          subst hmem
          omega
      · have hm : ((((o : Int) - (st.sig.firstUserSgprRegAddr : Int)) % 256).toNat + 1) % 256
            = (((o : Int) - (st.sig.firstUserSgprRegAddr : Int)) % 256).toNat + 1 :=
          Nat.mod_eq_of_lt (by omega)
        simp only [hm]
        omega
    · simp only [if_neg hv]
      split
      · exact ⟨h1, h2, h3, h4⟩
      · split
        · exact ⟨h1, h2, h3, h4⟩
        · split
          · exact ⟨h1, h2, h3, h4⟩
          · split
            · exact ⟨h1, h2, h3, h4⟩
            · split
              · exact ⟨h1, h2, h3, h4⟩
              · split
                · exact ⟨h1, h2, h3, h4⟩
                · exact ⟨h1, h2, h3, h4⟩

theorem sigScan_foldl_bounds (regs : List (Nat × Nat))
    (hreg : ∀ o v, regs.lookup o = some v → v < MaxUserDataEntries →
      mmCOMPUTE_USER_DATA_0 + FastUserDataStartReg ≤ o)
    (offs : List Nat) :
    ∀ st : SigExtractState,
      (∀ o ∈ offs, o ≤ mmCOMPUTE_USER_DATA_15) →
      st.sig.firstUserSgprRegAddr = mmCOMPUTE_USER_DATA_0 + FastUserDataStartReg →
      (∀ i ∈ st.entryToRegWrites, i < MaxUserDataEntries) →
      (∀ i ∈ st.mappedEntryWrites, i < 16) →
      st.sig.userSgprCount ≤ 16 →
      (offs.foldl (sigScanStep regs) st).sig.firstUserSgprRegAddr
          = mmCOMPUTE_USER_DATA_0 + FastUserDataStartReg ∧
      (∀ i ∈ (offs.foldl (sigScanStep regs) st).entryToRegWrites,
          i < MaxUserDataEntries) ∧
      (∀ i ∈ (offs.foldl (sigScanStep regs) st).mappedEntryWrites, i < 16) ∧
      (offs.foldl (sigScanStep regs) st).sig.userSgprCount ≤ 16 := by
  induction offs with
  | nil => intro st _ h1 h2 h3 h4; exact ⟨h1, h2, h3, h4⟩
  | cons o rest ih =>
    intro st ho h1 h2 h3 h4
    rw [List.foldl_cons]
    have hstep := sigScanStep_bounds regs hreg st o (ho o (by simp)) h1 h2 h3 h4
    exact ih _ (fun x hx => ho x (List.mem_cons_of_mem _ hx))
      hstep.1 hstep.2.1 hstep.2.2.1 hstep.2.2.2

/-- C10: when every user-data ordinal mapping (decoded value below
`MaxUserDataEntries`) in the register-value list occurs at a register offset
at or after the stage's first fast user-data SGPR address, signature
extraction performs only in-bounds array writes — `entryToRegAddr` is indexed
only by values below `MaxUserDataEntries`, `mappedEntry` only by indices
below 16 — and the resulting `userSgprCount` never exceeds 16. -/
theorem signature_extraction_safe (metadata : CodeObjectMetadataSig)
    (regs : List (Nat × Nat))
    (hreg : ∀ o v, regs.lookup o = some v → v < MaxUserDataEntries →
      mmCOMPUTE_USER_DATA_0 + FastUserDataStartReg ≤ o) :
    (∀ i ∈ (setupSignatureFromElf metadata regs).entryToRegWrites,
        i < MaxUserDataEntries) ∧
    (∀ i ∈ (setupSignatureFromElf metadata regs).mappedEntryWrites, i < 16) ∧
    (setupSignatureFromElf metadata regs).sig.userSgprCount ≤ 16 := by
  have hfold := sigScan_foldl_bounds regs hreg userDataRegAddrs
    { sig := { nullCsSignature with
        firstUserSgprRegAddr := mmCOMPUTE_USER_DATA_0 + FastUserDataStartReg }
      entryToRegAddr := List.replicate MaxUserDataEntries 0
      perfDataRegOffset := UserDataNotMapped
      mappedEntryWrites := []
      entryToRegWrites := [] }
    (by decide) rfl (by simp) (by simp) (by decide)
  rcases metadata with ⟨sp, ul⟩
  cases sp with
  | none =>
    cases ul with
    | none => exact ⟨hfold.2.1, hfold.2.2.1, hfold.2.2.2⟩
    | some v => exact ⟨hfold.2.1, hfold.2.2.1, hfold.2.2.2⟩
  | some v =>
    cases ul with
    | none => exact ⟨hfold.2.1, hfold.2.2.1, hfold.2.2.2⟩
    | some w => exact ⟨hfold.2.1, hfold.2.2.1, hfold.2.2.2⟩

/-- C10 witness: the safety theorem applied to the concrete list mapping
ordinal 0 at the first fast user-data register. -/
theorem signature_extraction_safe_witness :
    (∀ i ∈ (setupSignatureFromElf ⟨none, none⟩ [(0x2E42, 0)]).entryToRegWrites,
        i < MaxUserDataEntries) ∧
    (∀ i ∈ (setupSignatureFromElf ⟨none, none⟩ [(0x2E42, 0)]).mappedEntryWrites,
        i < 16) ∧
    (setupSignatureFromElf ⟨none, none⟩ [(0x2E42, 0)]).sig.userSgprCount ≤ 16 :=
  signature_extraction_safe ⟨none, none⟩ [(0x2E42, 0)]
    (by
      intro o v h hv
      have hc : mmCOMPUTE_USER_DATA_0 + FastUserDataStartReg = 0x2E42 := rfl
      rw [hc]
      by_cases ho : o = 0x2E42
      · omega
      · have hfalse : (o == 11842) = false := by simpa using ho
        simp only [List.lookup] at h
        rw [hfalse] at h
        simp at h)

/-- The `Pal::Result` codes produced by the modelled introspection paths. -/
inductive ResultCode where
  | success
  | errorInvalidPointer
  | errorUnavailable
  | errorInvalidMemorySize
deriving DecidableEq, Repr

/-- `ShaderStageInfo`: hardware-stage id and stored code length of a stage
with recorded shader code. -/
structure ShaderStageInfo where
  stageId : Nat
  codeLength : Nat
deriving DecidableEq, Repr

/-- The view of the retained ELF produced by re-parsing it
(`AbiProcessor::LoadFromBuffer` + `GetPipelineCode` +
`GetPipelineSymbolEntry`, external collaborators): the code-section bytes and
each hardware stage's main-entry symbol (value, size). -/
structure ParsedElf where
  codeSection : List Nat
  mainEntry : Nat → Nat × Nat

/-- `memcpy(pBuffer, src, src.length)` into a caller buffer modelled as a
byte list: the first bytes are replaced, the tail keeps its old contents. -/
def memcpyList (buf src : List Nat) : List Nat :=
  src ++ buf.drop src.length

/-- `Pipeline::GetShaderCode` (pipeline.cpp lines 322-373).  `stageInfo`
models `GetShaderStageInfo(shaderType)` (`none` for a null pointer);
`loadRes` and `elf` model the result code and parsed view of
`LoadFromBuffer` re-parsing the retained ELF; `pSize` is the pointed-to size
and `pBuffer` the caller buffer (`none` for null pointers).  Returns
(result, value behind `pSize` after the call, buffer contents after the
call). -/
def getShaderCode (stageInfo : Option ShaderStageInfo) (loadRes : ResultCode)
    (elf : ParsedElf) (pSize : Option Nat) (pBuffer : Option (List Nat)) :
    ResultCode × Option Nat × Option (List Nat) :=
  match pSize with
  | none => (ResultCode.errorInvalidPointer, none, pBuffer)
  | some size =>
    match stageInfo with
    | none => (ResultCode.errorUnavailable, some size, pBuffer)
    | some info =>
      match pBuffer with
      | none => (ResultCode.success, some info.codeLength, none)
      | some buf =>
        if info.codeLength ≤ size then
          if loadRes = ResultCode.success then
            (ResultCode.success, some size,
             some (memcpyList buf
               ((elf.codeSection.drop (elf.mainEntry info.stageId).1).take
                 (elf.mainEntry info.stageId).2)))
          else (loadRes, some size, some buf)
        else (ResultCode.errorInvalidMemorySize, some size, some buf)

/-- C4: for a pipeline with recorded shader code for a stage (stage info
present, the retained ELF re-parses successfully, and — as the source
asserts — the stage's main-entry symbol has `size == codeLength` and lies
inside the code section), `GetShaderCode` with a null buffer succeeds and
returns the stored code length, and a second call whose declared size is
exactly that length succeeds and fills the buffer with the retained ELF's
code-section bytes at the symbol's (value, size) location. -/
theorem get_shader_code_roundtrip (info : ShaderStageInfo) (elf : ParsedElf)
    (pSizeIn : Nat) (buf : List Nat)
    (hsym : (elf.mainEntry info.stageId).2 = info.codeLength)
    (hsect : (elf.mainEntry info.stageId).1 + (elf.mainEntry info.stageId).2
        ≤ elf.codeSection.length)
    (hbuf : buf.length = info.codeLength) :
    getShaderCode (some info) ResultCode.success elf (some pSizeIn) none
        = (ResultCode.success, some info.codeLength, none) ∧
    getShaderCode (some info) ResultCode.success elf (some info.codeLength)
        (some buf)
      = (ResultCode.success, some info.codeLength,
         some ((elf.codeSection.drop (elf.mainEntry info.stageId).1).take
           (elf.mainEntry info.stageId).2)) := by
  constructor
  · rfl
  · have hsrclen : ((elf.codeSection.drop (elf.mainEntry info.stageId).1).take
        (elf.mainEntry info.stageId).2).length = (elf.mainEntry info.stageId).2 := by
      rw [List.length_take, List.length_drop]
      omega
    simp only [getShaderCode]
    rw [if_pos (le_refl info.codeLength), if_true]
    unfold memcpyList
    rw [hsrclen, hsym, ← hbuf, List.drop_length, List.append_nil]

/-- C4 witness: the round-trip theorem at a concrete 4-byte code section with
a 2-byte symbol at offset 1. -/
theorem get_shader_code_roundtrip_witness :
    getShaderCode (some ⟨0, 2⟩) ResultCode.success
        ⟨[10, 20, 30, 40], fun _ => (1, 2)⟩ (some 2) (some [0, 0])
      = (ResultCode.success, some 2, some [20, 30]) :=
  ((get_shader_code_roundtrip ⟨0, 2⟩ ⟨[10, 20, 30, 40], fun _ => (1, 2)⟩ 7
      [0, 0] rfl (by decide) rfl).2).trans rfl

/-- A GPU memory sub-allocation record (`GpuMemSubAllocInfo`), without the
opaque memory-object pointer. -/
structure GpuMemSubAllocInfo where
  offset : Nat
  size : Nat
deriving DecidableEq, Repr

/-- Introspection-relevant state of a fully created `Pipeline` object:
the retained ELF blob (`none` models a null `m_pPipelineBinary`), the
per-stage performance-data records, the mapped bytes of the bound GPU
allocation (`Map` is modelled as always succeeding on a created pipeline),
and the allocation's offset and size. -/
structure PipelineModel where
  pipelineBinary : Option (List Nat)
  perfDataInfo : List PerfDataInfo
  gpuMemBytes : List Nat
  gpuMemOffset : Nat
  gpuMemSize : Nat
deriving DecidableEq, Repr

/-- `Pipeline::GetPipelineElf` (pipeline.cpp lines 285-318). -/
def getPipelineElf (p : PipelineModel) (pSize : Option Nat)
    (pBuffer : Option (List Nat)) : ResultCode × Option Nat × Option (List Nat) :=
  match pSize with
  | none => (ResultCode.errorInvalidPointer, none, pBuffer)
  | some size =>
    match p.pipelineBinary with
    | none => (ResultCode.errorUnavailable, some size, pBuffer)
    | some bin =>
      if bin.length = 0 then (ResultCode.errorUnavailable, some size, pBuffer)
      else
        match pBuffer with
        | none => (ResultCode.success, some bin.length, none)
        | some buf =>
          if bin.length ≤ size then
            (ResultCode.success, some size, some (memcpyList buf bin))
          else (ResultCode.errorInvalidMemorySize, some size, some buf)

/-- `Pipeline::GetPerformanceData` (pipeline.cpp lines 377-411).  Note the
source has no `else` arm for an undersized buffer: `result` keeps its initial
`ErrorUnavailable` value there. -/
def getPerformanceData (p : PipelineModel) (stage : Nat) (pSize : Option Nat)
    (pBuffer : Option (List Nat)) : ResultCode × Option Nat × Option (List Nat) :=
  let info := p.perfDataInfo.getD stage ⟨0, 0, 0⟩
  match pSize with
  | none => (ResultCode.errorInvalidPointer, none, pBuffer)
  | some size =>
    if 0 < info.sizeInBytes then
      match pBuffer with
      | none => (ResultCode.success, some info.sizeInBytes, none)
      | some buf =>
        if info.sizeInBytes ≤ size then
          (ResultCode.success, some size,
           some (memcpyList buf
             ((p.gpuMemBytes.drop info.cpuOffset).take info.sizeInBytes)))
        else (ResultCode.errorUnavailable, some size, some buf)
    else (ResultCode.errorUnavailable, some size, pBuffer)

/-- `Pipeline::QueryAllocationInfo` (pipeline.cpp lines 259-281): stores the
entry count 1 and, when the list pointer is non-null, overwrites its first
entry; it takes no declared size and has no too-small path. -/
def queryAllocationInfo (p : PipelineModel) (pNumEntries : Option Nat)
    (pGpuMemList : Option (List GpuMemSubAllocInfo)) :
    ResultCode × Option Nat × Option (List GpuMemSubAllocInfo) :=
  match pNumEntries with
  | none => (ResultCode.errorInvalidPointer, none, pGpuMemList)
  | some _ =>
    match pGpuMemList with
    | none => (ResultCode.success, some 1, none)
    | some l =>
      (ResultCode.success, some 1,
       some ((⟨p.gpuMemOffset, p.gpuMemSize⟩ : GpuMemSubAllocInfo) :: l.drop 1))

/-- C9 counterexample: `GetPerformanceData` on a stage with a 4-byte
performance buffer, called with a non-null buffer of declared size 2, returns
`ErrorUnavailable` (its initial value falls through), not the
`ErrorInvalidMemorySize` the uniform taxonomy claims. -/
theorem perf_data_too_small_cex :
    (getPerformanceData ⟨some [1], [⟨4, 0, 0⟩], [7, 7, 7, 7], 0, 32⟩ 0
        (some 2) (some [9, 9])).1 = ResultCode.errorUnavailable ∧
    ResultCode.errorUnavailable ≠ ResultCode.errorInvalidMemorySize := by
  decide

/-- C9 (amended): the probe-then-fill convention and error taxonomy for
`GetPipelineElf`, `GetPerformanceData`, `GetShaderCode` and
`QueryAllocationInfo`: a null required-size pointer yields invalid-argument;
an artifact never produced yields not-available; a null output buffer yields
success and stores the required size without copying; an undersized buffer
yields buffer-too-small for `GetPipelineElf` and `GetShaderCode` but
not-available for `GetPerformanceData` (amended — the source keeps its
initial result there), and `QueryAllocationInfo` takes no declared size and
copies unconditionally; otherwise the artifact bytes are copied and success
is returned.  The pipeline value is immutable in every case: the functions
are pure and never return a modified pipeline. -/
theorem introspection_queries :
    (∀ (p : PipelineModel) (pb : Option (List Nat)),
      getPipelineElf p none pb = (ResultCode.errorInvalidPointer, none, pb)) ∧
    (∀ (si : Option ShaderStageInfo) (lr : ResultCode) (elf : ParsedElf)
        (pb : Option (List Nat)),
      getShaderCode si lr elf none pb = (ResultCode.errorInvalidPointer, none, pb)) ∧
    (∀ (p : PipelineModel) (stage : Nat) (pb : Option (List Nat)),
      getPerformanceData p stage none pb = (ResultCode.errorInvalidPointer, none, pb)) ∧
    (∀ (p : PipelineModel) (pl : Option (List GpuMemSubAllocInfo)),
      queryAllocationInfo p none pl = (ResultCode.errorInvalidPointer, none, pl)) ∧
    (∀ (p : PipelineModel) (size : Nat) (pb : Option (List Nat)),
      p.pipelineBinary = none →
      getPipelineElf p (some size) pb = (ResultCode.errorUnavailable, some size, pb)) ∧
    (∀ (lr : ResultCode) (elf : ParsedElf) (size : Nat) (pb : Option (List Nat)),
      getShaderCode none lr elf (some size) pb
        = (ResultCode.errorUnavailable, some size, pb)) ∧
    (∀ (p : PipelineModel) (stage size : Nat) (pb : Option (List Nat)),
      (p.perfDataInfo.getD stage ⟨0, 0, 0⟩).sizeInBytes = 0 →
      getPerformanceData p stage (some size) pb
        = (ResultCode.errorUnavailable, some size, pb)) ∧
    (∀ (p : PipelineModel) (size : Nat) (bin : List Nat),
      p.pipelineBinary = some bin → bin ≠ [] →
      getPipelineElf p (some size) none = (ResultCode.success, some bin.length, none)) ∧
    (∀ (p : PipelineModel) (stage size : Nat),
      0 < (p.perfDataInfo.getD stage ⟨0, 0, 0⟩).sizeInBytes →
      getPerformanceData p stage (some size) none
        = (ResultCode.success, some (p.perfDataInfo.getD stage ⟨0, 0, 0⟩).sizeInBytes,
           none)) ∧
    (∀ (p : PipelineModel) (k : Nat),
      queryAllocationInfo p (some k) none = (ResultCode.success, some 1, none)) ∧
    (∀ (p : PipelineModel) (size : Nat) (bin buf : List Nat),
      p.pipelineBinary = some bin → size < bin.length →
      getPipelineElf p (some size) (some buf)
        = (ResultCode.errorInvalidMemorySize, some size, some buf)) ∧
    (∀ (lr : ResultCode) (elf : ParsedElf) (size : Nat) (buf : List Nat)
        (info : ShaderStageInfo),
      size < info.codeLength →
      getShaderCode (some info) lr elf (some size) (some buf)
        = (ResultCode.errorInvalidMemorySize, some size, some buf)) ∧
    (∀ (p : PipelineModel) (stage size : Nat) (buf : List Nat),
      0 < (p.perfDataInfo.getD stage ⟨0, 0, 0⟩).sizeInBytes →
      size < (p.perfDataInfo.getD stage ⟨0, 0, 0⟩).sizeInBytes →
      getPerformanceData p stage (some size) (some buf)
        = (ResultCode.errorUnavailable, some size, some buf)) ∧
    (∀ (p : PipelineModel) (size : Nat) (bin buf : List Nat),
      p.pipelineBinary = some bin → bin ≠ [] → bin.length ≤ size →
      getPipelineElf p (some size) (some buf)
        = (ResultCode.success, some size, some (memcpyList buf bin))) ∧
    (∀ (p : PipelineModel) (stage size : Nat) (buf : List Nat),
      0 < (p.perfDataInfo.getD stage ⟨0, 0, 0⟩).sizeInBytes →
      (p.perfDataInfo.getD stage ⟨0, 0, 0⟩).sizeInBytes ≤ size →
      getPerformanceData p stage (some size) (some buf)
        = (ResultCode.success, some size,
           some (memcpyList buf
             ((p.gpuMemBytes.drop (p.perfDataInfo.getD stage ⟨0, 0, 0⟩).cpuOffset).take
               (p.perfDataInfo.getD stage ⟨0, 0, 0⟩).sizeInBytes)))) ∧
    (∀ (p : PipelineModel) (k : Nat) (l : List GpuMemSubAllocInfo),
      queryAllocationInfo p (some k) (some l)
        = (ResultCode.success, some 1,
           some ((⟨p.gpuMemOffset, p.gpuMemSize⟩ : GpuMemSubAllocInfo) :: l.drop 1))) := by
  refine ⟨?_, ?_, ?_, ?_, ?_, ?_, ?_, ?_, ?_, ?_, ?_, ?_, ?_, ?_, ?_, ?_⟩
  · intro p pb; rfl
  · intro si lr elf pb; rfl
  · intro p stage pb; rfl
  · intro p pl; rfl
  · intro p size pb h; simp [getPipelineElf, h]
  · intro lr elf size pb; rfl
  · intro p stage size pb h
    simp only [getPerformanceData]
    rw [if_neg (by omega)]
  · intro p size bin h hne
    simp [getPipelineElf, h, List.length_eq_zero, hne]
  · intro p stage size h
    simp only [getPerformanceData]
    rw [if_pos h]
  · intro p k; rfl
  · intro p size bin buf h hlt
    have hne : ¬ bin.length = 0 := by omega
    simp [getPipelineElf, h, hne, Nat.not_le.mpr hlt]
  · intro lr elf size buf info hlt
    simp [getShaderCode, Nat.not_le.mpr hlt]
  · intro p stage size buf h hlt
    simp only [getPerformanceData]
    rw [if_pos h, if_neg (by omega)]
  · intro p size bin buf h hne hle
    simp [getPipelineElf, h, List.length_eq_zero, hne, hle]
  · intro p stage size buf h hle
    simp only [getPerformanceData]
    rw [if_pos h, if_pos hle]
  · intro p k l; rfl

/-- C9 witness: the amended theorem's `GetPipelineElf` fill conjunct at a
concrete pipeline, plus its `GetPerformanceData` too-small conjunct at the
counterexample input. -/
theorem introspection_queries_witness :
    getPipelineElf ⟨some [5, 6], [], [], 0, 0⟩ (some 3) (some [9, 9, 9])
      = (ResultCode.success, some 3, some [5, 6, 9]) ∧
    getPerformanceData ⟨some [1], [⟨4, 0, 0⟩], [7, 7, 7, 7], 0, 32⟩ 0
        (some 2) (some [9, 9])
      = (ResultCode.errorUnavailable, some 2, some [9, 9]) :=
  ⟨(introspection_queries.2.2.2.2.2.2.2.2.2.2.2.2.2.1
      ⟨some [5, 6], [], [], 0, 0⟩ 3 [5, 6] [9, 9, 9] rfl (by decide) (by decide)).trans
    rfl,
   introspection_queries.2.2.2.2.2.2.2.2.2.2.2.2.1
      ⟨some [1], [⟨4, 0, 0⟩], [7, 7, 7, 7], 0, 32⟩ 0 2 [9, 9] (by decide) (by decide)⟩

/-- Bit fields of `COMPUTE_RESOURCE_LIMITS` touched by the compute pipeline;
`other` stands for the untouched remaining bits of the register value decoded
from the ELF.  The packed 32-bit layout is generation-specific (gfx9 register
headers, outside the provided sources), so the fields are kept symbolic. -/
structure ComputeResourceLimits where
  wavesPerSh : Nat
  tgPerCu : Nat
  lockThreshold : Nat
  simdDestCntl : Nat
  forceSimdDist : Nat
  other : Nat
deriving DecidableEq, Repr

/-- Bit fields of `COMPUTE_PGM_RSRC2` touched by the compute pipeline. -/
structure ComputePgmRsrc2 where
  ldsSize : Nat
  trapPresent : Nat
  other : Nat
deriving DecidableEq, Repr

/-- One element of an emitted command stream.  Registers whose exact 32-bit
packing is generation-specific are carried as structured values; `raw`
carries plain pre-baked words (packet headers and opaque images). -/
inductive CmdWord where
  | raw : Nat → CmdWord
  | rsrc2 : ComputePgmRsrc2 → CmdWord
  | rlimits : ComputeResourceLimits → CmdWord
  | shRegWrite : Nat → Nat → CmdWord
deriving DecidableEq, Repr

/-- The set-path PM4 image (`m_commands.set`): `WritePm4Image` copies
`spaceNeeded` words of it. -/
structure SetCmdsImage where
  spaceNeeded : Nat
  image : List CmdWord
deriving DecidableEq, Repr

/-- The LOAD_SH_REG_INDEX image (`m_commands.loadIndex`): `headerU32` models
`loadShRegIndex.header.u32All`, which stays zero (`memset` in the
constructor) when `BuildPm4Headers` builds no load-index packet; the whole
fixed-size image is copied when used. -/
structure LoadIndexCmdsImage where
  headerU32 : Nat
  image : List CmdWord
deriving DecidableEq, Repr

/-- The dynamic, copy-then-patch image (`m_commands.dynamic`): two packet
headers and the two patched registers. -/
structure DynamicCmdsImage where
  hdrPgmRsrc2 : Nat
  pgmRsrc2 : ComputePgmRsrc2
  hdrResourceLimits : Nat
  resourceLimits : ComputeResourceLimits
deriving DecidableEq, Repr

/-- Serialization of the dynamic image as written by `WritePm4Image`. -/
def DynamicCmdsImage.words (d : DynamicCmdsImage) : List CmdWord :=
  [CmdWord.raw d.hdrPgmRsrc2, CmdWord.rsrc2 d.pgmRsrc2,
   CmdWord.raw d.hdrResourceLimits, CmdWord.rlimits d.resourceLimits]

/-- The conditional prefetch image (`m_commands.prefetch`). -/
structure PrefetchCmdsImage where
  spaceNeeded : Nat
  image : List CmdWord
deriving DecidableEq, Repr

structure ComputePipelineCmds where
  set : SetCmdsImage
  loadIndex : LoadIndexCmdsImage
  dynamic : DynamicCmdsImage
  prefetch : PrefetchCmdsImage
deriving DecidableEq, Repr

/-- The gfx9 chip properties read by the compute pipeline. -/
structure GpuChipProps where
  numSimdPerCu : Nat
  numWavesPerSimd : Nat
  numCuPerSh : Nat
  numShaderArrays : Nat
deriving DecidableEq, Repr

/-- `DynamicComputeShaderInfo`: the caller's per-bind dynamic state. -/
structure DynamicComputeShaderInfo where
  maxWavesPerCu : Nat
  maxThreadGroupsPerCu : Nat
  ldsBytesPerTg : Nat
deriving DecidableEq, Repr

/-- The fully created compute pipeline state read by `WriteCommands`: the
pre-baked images, the chip properties, and the Cs-stage performance-data
record (`regOffset` set by signature extraction, `gpuVirtAddr` by Begin). -/
structure ComputePipelineModel where
  commands : ComputePipelineCmds
  chip : GpuChipProps
  perfDataRegOffset : Nat
  perfDataGpuVirtAddr : Nat
deriving DecidableEq, Repr

inductive EngineType where
  | universal
  | compute
deriving DecidableEq, Repr

/-- `ComputePipeline::CalcMaxWavesPerSh` (gfx9ComputePipeline.cpp lines
347-372). -/
def calcMaxWavesPerSh (chip : GpuChipProps) (maxWavesPerCu : Nat) : Nat :=
  if 0 < maxWavesPerCu then
    min (chip.numSimdPerCu * chip.numWavesPerSimd * chip.numCuPerSh)
        (maxWavesPerCu * chip.numCuPerSh)
  else 0

/-- `Gfx9MaxTgPerCu` (gfx9ComputePipeline.cpp line 407). -/
def Gfx9MaxTgPerCu : Nat := 15

/-- `Gfx9MaxLockThreshold` (gfx9ComputePipeline.cpp line 317). -/
def Gfx9MaxLockThreshold : Nat := 252

/-- Modelled from the spec: the hardware LDS granularity constants
`Gfx9LdsDwGranularity`/`Gfx9LdsDwGranularityShift` come from a header outside
the provided sources; LDS_SIZE is in units of 128 DWORDs. -/
def Gfx9LdsDwGranularity : Nat := 128

def Gfx9LdsDwGranularityShift : Nat := 7

/-- The per-bind patching of the private copy `dynamicCmds` of the dynamic
image (`WriteCommands`, gfx9ComputePipeline.cpp lines 404-420): clamp
TG_PER_CU, recompute WAVES_PER_SH when a wave limit is given, round the LDS
size to the hardware granularity when given. -/
def patchDynamic (chip : GpuChipProps) (d : DynamicCmdsImage)
    (csInfo : DynamicComputeShaderInfo) : DynamicCmdsImage :=
  let d1 := { d with resourceLimits := { d.resourceLimits with
    tgPerCu := min csInfo.maxThreadGroupsPerCu Gfx9MaxTgPerCu } }
  let d2 :=
    if 0 < csInfo.maxWavesPerCu then
      { d1 with resourceLimits := { d1.resourceLimits with
        wavesPerSh := calcMaxWavesPerSh chip csInfo.maxWavesPerCu } }
    else d1
  if 0 < csInfo.ldsBytesPerTg then
    { d2 with pgmRsrc2 := { d2.pgmRsrc2 with
      ldsSize := pow2Align (csInfo.ldsBytesPerTg / 4) Gfx9LdsDwGranularity
        >>> Gfx9LdsDwGranularityShift } }
  else d2

/-- The tail of the stream `WriteCommands` emits after the set/load choice:
the patched dynamic image, the performance-data register write when the
extractor recovered one, and the prefetch image when requested. -/
def writeCommandsTail (p : ComputePipelineModel)
    (csInfo : DynamicComputeShaderInfo) (prefetch : Bool) : List CmdWord :=
  (patchDynamic p.chip p.commands.dynamic csInfo).words
    ++ (if p.perfDataRegOffset ≠ UserDataNotMapped then
          [CmdWord.shRegWrite p.perfDataRegOffset p.perfDataGpuVirtAddr]
        else [])
    ++ (if prefetch then
          p.commands.prefetch.image.take p.commands.prefetch.spaceNeeded
        else [])

/-- `ComputePipeline::WriteCommands` (gfx9ComputePipeline.cpp lines 376-440)
as the list of command words it appends: `useSetPath` holds when no
load-index packet was built (`header.u32All == 0`), when the PM4 optimizer is
enabled, or on a compute engine. -/
def writeCommands (p : ComputePipelineModel) (csInfo : DynamicComputeShaderInfo)
    (prefetch : Bool) (engine : EngineType) (pm4OptimizerEnabled : Bool) :
    List CmdWord :=
  (if p.commands.loadIndex.headerU32 = 0 ∨ pm4OptimizerEnabled = true
      ∨ engine = EngineType.compute then
    p.commands.set.image.take p.commands.set.spaceNeeded
  else
    p.commands.loadIndex.image)
    ++ writeCommandsTail p csInfo prefetch

/-- Writing into a caller command buffer at cursor `pos`: the emitted words
overwrite the buffer from `pos` on, and the returned cursor (the source
returns the next unused DWORD pointer) advances by the number of words
written. -/
def writeCommandsInto (p : ComputePipelineModel)
    (csInfo : DynamicComputeShaderInfo) (prefetch : Bool) (engine : EngineType)
    (opt : Bool) (buf : List CmdWord) (pos : Nat) : List CmdWord × Nat :=
  let ws := writeCommands p csInfo prefetch engine opt
  (buf.take pos ++ ws ++ buf.drop (pos + ws.length), pos + ws.length)

/-- Statement-by-statement threading of the object state through
`WriteCommands` (a `const` method): the only mutation in the source body is
to the local copy `dynamicCmds` and the output buffer, so the pipeline state
comes back unchanged. -/
def writeCommandsThreaded (p : ComputePipelineModel)
    (csInfo : DynamicComputeShaderInfo) (prefetch : Bool) (engine : EngineType)
    (opt : Bool) : ComputePipelineModel × List CmdWord :=
  let dynamicCmds := patchDynamic p.chip p.commands.dynamic csInfo
  ((if p.commands.loadIndex.headerU32 = 0 ∨ opt = true
        ∨ engine = EngineType.compute then p else p),
   (if p.commands.loadIndex.headerU32 = 0 ∨ opt = true
        ∨ engine = EngineType.compute then
      p.commands.set.image.take p.commands.set.spaceNeeded
    else p.commands.loadIndex.image)
    ++ dynamicCmds.words
    ++ (if p.perfDataRegOffset ≠ UserDataNotMapped then
          [CmdWord.shRegWrite p.perfDataRegOffset p.perfDataGpuVirtAddr]
        else [])
    ++ (if prefetch then
          p.commands.prefetch.image.take p.commands.prefetch.spaceNeeded
        else []))

theorem overwrite_slice {α : Type} (b ws : List α) (pos : Nat)
    (h : pos ≤ b.length) :
    ((b.take pos ++ ws ++ b.drop (pos + ws.length)).drop pos).take ws.length
      = ws := by
  have hlen : (b.take pos).length = pos := by
    rw [List.length_take]
    omega
  rw [List.append_assoc, List.drop_left' hlen, List.take_left]

/-- C6: two `WriteCommands` calls on the same fully created pipeline with
identical dynamic compute-shader info, prefetch flag and engine/optimizer
state, against two distinct output buffers, write identical command words
into their buffers and advance the cursor by the same amount — the emitted
words are independent of either buffer's prior contents; and the call leaves
the pipeline's pre-baked packet images unmodified: only the private copy
produced by `patchDynamic` is patched, and the threaded object state comes
back equal to the input. -/
theorem write_commands_deterministic (p : ComputePipelineModel)
    (csInfo : DynamicComputeShaderInfo) (prefetch : Bool) (engine : EngineType)
    (opt : Bool) (b1 b2 : List CmdWord) (pos : Nat)
    (h1 : pos ≤ b1.length) (h2 : pos ≤ b2.length) :
    (writeCommandsInto p csInfo prefetch engine opt b1 pos).2
        = (writeCommandsInto p csInfo prefetch engine opt b2 pos).2 ∧
    ((writeCommandsInto p csInfo prefetch engine opt b1 pos).1.drop pos).take
        ((writeCommandsInto p csInfo prefetch engine opt b1 pos).2 - pos)
      = ((writeCommandsInto p csInfo prefetch engine opt b2 pos).1.drop pos).take
        ((writeCommandsInto p csInfo prefetch engine opt b2 pos).2 - pos) ∧
    (writeCommandsThreaded p csInfo prefetch engine opt).1 = p ∧
    (writeCommandsThreaded p csInfo prefetch engine opt).2
        = writeCommands p csInfo prefetch engine opt := by
  refine ⟨rfl, ?_, ?_, ?_⟩
  · simp only [writeCommandsInto, Nat.add_sub_cancel_left]
    rw [overwrite_slice b1 _ pos h1, overwrite_slice b2 _ pos h2]
  · simp only [writeCommandsThreaded]
    split <;> rfl
  · simp only [writeCommandsThreaded, writeCommands, writeCommandsTail,
      List.append_assoc]

/-- C6 witness: the determinism theorem at a concrete pipeline, two concrete
distinct buffers and cursor 1. -/
theorem write_commands_deterministic_witness :
    (writeCommandsInto
        ⟨⟨⟨2, [CmdWord.raw 1, CmdWord.raw 2, CmdWord.raw 3]⟩, ⟨5, [CmdWord.raw 9]⟩,
          ⟨11, ⟨0, 0, 0⟩, 12, ⟨0, 0, 0, 0, 0, 0⟩⟩, ⟨1, [CmdWord.raw 7]⟩⟩,
         ⟨4, 10, 9, 1⟩, 0, 4128⟩
        ⟨0, 0, 0⟩ true EngineType.universal false
        [CmdWord.raw 100, CmdWord.raw 100] 1).2
      = (writeCommandsInto
          ⟨⟨⟨2, [CmdWord.raw 1, CmdWord.raw 2, CmdWord.raw 3]⟩, ⟨5, [CmdWord.raw 9]⟩,
            ⟨11, ⟨0, 0, 0⟩, 12, ⟨0, 0, 0, 0, 0, 0⟩⟩, ⟨1, [CmdWord.raw 7]⟩⟩,
           ⟨4, 10, 9, 1⟩, 0, 4128⟩
          ⟨0, 0, 0⟩ true EngineType.universal false
          [CmdWord.raw 200, CmdWord.raw 200, CmdWord.raw 200] 1).2 ∧
    ((writeCommandsInto
        ⟨⟨⟨2, [CmdWord.raw 1, CmdWord.raw 2, CmdWord.raw 3]⟩, ⟨5, [CmdWord.raw 9]⟩,
          ⟨11, ⟨0, 0, 0⟩, 12, ⟨0, 0, 0, 0, 0, 0⟩⟩, ⟨1, [CmdWord.raw 7]⟩⟩,
         ⟨4, 10, 9, 1⟩, 0, 4128⟩
        ⟨0, 0, 0⟩ true EngineType.universal false
        [CmdWord.raw 100, CmdWord.raw 100] 1).1.drop 1).take 6
      = ((writeCommandsInto
          ⟨⟨⟨2, [CmdWord.raw 1, CmdWord.raw 2, CmdWord.raw 3]⟩, ⟨5, [CmdWord.raw 9]⟩,
            ⟨11, ⟨0, 0, 0⟩, 12, ⟨0, 0, 0, 0, 0, 0⟩⟩, ⟨1, [CmdWord.raw 7]⟩⟩,
           ⟨4, 10, 9, 1⟩, 0, 4128⟩
          ⟨0, 0, 0⟩ true EngineType.universal false
          [CmdWord.raw 200, CmdWord.raw 200, CmdWord.raw 200] 1).1.drop 1).take 6 := by
  have h := write_commands_deterministic
    ⟨⟨⟨2, [CmdWord.raw 1, CmdWord.raw 2, CmdWord.raw 3]⟩, ⟨5, [CmdWord.raw 9]⟩,
      ⟨11, ⟨0, 0, 0⟩, 12, ⟨0, 0, 0, 0, 0, 0⟩⟩, ⟨1, [CmdWord.raw 7]⟩⟩,
     ⟨4, 10, 9, 1⟩, 0, 4128⟩
    ⟨0, 0, 0⟩ true EngineType.universal false
    [CmdWord.raw 100, CmdWord.raw 100] [CmdWord.raw 200, CmdWord.raw 200, CmdWord.raw 200]
    1 (by decide) (by decide)
  exact ⟨h.1, by decide⟩

/-- C7: encoding-path selection: `WriteCommands` never writes the load-index
packet when the target stream runs on a compute-only engine, when the PM4
optimizer is active, or when no load-index packet was built
(`header.u32All == 0`); in exactly those cases the emitted stream starts with
the set-path image of literal register values, and otherwise it starts with
the load-index packet. -/
theorem write_commands_path (p : ComputePipelineModel)
    (csInfo : DynamicComputeShaderInfo) (prefetch : Bool) (engine : EngineType)
    (opt : Bool) :
    ((engine = EngineType.compute ∨ opt = true
        ∨ p.commands.loadIndex.headerU32 = 0) →
      writeCommands p csInfo prefetch engine opt
        = p.commands.set.image.take p.commands.set.spaceNeeded
            ++ writeCommandsTail p csInfo prefetch) ∧
    (engine ≠ EngineType.compute → opt ≠ true →
      p.commands.loadIndex.headerU32 ≠ 0 →
      writeCommands p csInfo prefetch engine opt
        = p.commands.loadIndex.image ++ writeCommandsTail p csInfo prefetch) := by
  constructor
  · intro h
    unfold writeCommands
    rw [if_pos (by tauto)]
  · intro he ho hh
    unfold writeCommands
    rw [if_neg (by tauto)]

/-- C7 witness: the path theorem at one concrete pipeline with a built
load-index packet, once on a compute engine (set path) and once on the
universal engine without the optimizer (load-index path). -/
theorem write_commands_path_witness :
    writeCommands
        ⟨⟨⟨2, [CmdWord.raw 1, CmdWord.raw 2, CmdWord.raw 3]⟩, ⟨5, [CmdWord.raw 9]⟩,
          ⟨11, ⟨0, 0, 0⟩, 12, ⟨0, 0, 0, 0, 0, 0⟩⟩, ⟨1, [CmdWord.raw 7]⟩⟩,
         ⟨4, 10, 9, 1⟩, 0, 4128⟩
        ⟨0, 0, 0⟩ false EngineType.compute false
      = [CmdWord.raw 1, CmdWord.raw 2]
          ++ writeCommandsTail
            ⟨⟨⟨2, [CmdWord.raw 1, CmdWord.raw 2, CmdWord.raw 3]⟩, ⟨5, [CmdWord.raw 9]⟩,
              ⟨11, ⟨0, 0, 0⟩, 12, ⟨0, 0, 0, 0, 0, 0⟩⟩, ⟨1, [CmdWord.raw 7]⟩⟩,
             ⟨4, 10, 9, 1⟩, 0, 4128⟩
            ⟨0, 0, 0⟩ false ∧
    writeCommands
        ⟨⟨⟨2, [CmdWord.raw 1, CmdWord.raw 2, CmdWord.raw 3]⟩, ⟨5, [CmdWord.raw 9]⟩,
          ⟨11, ⟨0, 0, 0⟩, 12, ⟨0, 0, 0, 0, 0, 0⟩⟩, ⟨1, [CmdWord.raw 7]⟩⟩,
         ⟨4, 10, 9, 1⟩, 0, 4128⟩
        ⟨0, 0, 0⟩ false EngineType.universal false
      = [CmdWord.raw 9]
          ++ writeCommandsTail
            ⟨⟨⟨2, [CmdWord.raw 1, CmdWord.raw 2, CmdWord.raw 3]⟩, ⟨5, [CmdWord.raw 9]⟩,
              ⟨11, ⟨0, 0, 0⟩, 12, ⟨0, 0, 0, 0, 0, 0⟩⟩, ⟨1, [CmdWord.raw 7]⟩⟩,
             ⟨4, 10, 9, 1⟩, 0, 4128⟩
            ⟨0, 0, 0⟩ false := by
  constructor
  · exact ((write_commands_path _ _ _ _ _).1 (Or.inl rfl)).trans (by rfl)
  · exact ((write_commands_path _ _ _ _ _).2 (by decide) (by decide)
      (by decide)).trans (by rfl)

/-- The `csSimdDestCntl` panel setting (`CsSimdDestCntlDefault` /
`CsSimdDestCntlForce1` / `CsSimdDestCntlForce0`). -/
inductive CsSimdDestCntlSetting where
  | default
  | force1
  | force0
deriving DecidableEq, Repr

/-- The gfx9 settings read by `HwlInit`'s dynamic-image computation. -/
structure Gfx9Settings where
  csLockThreshold : Nat
  csSimdDestCntl : CsSimdDestCntlSetting
deriving DecidableEq, Repr

/-- Modelled from the spec: `RoundUpQuotient` (PAL utility outside the
provided sources) is the ceiling quotient. -/
def roundUpQuotient (a b : Nat) : Nat := (a + b - 1) / b

/-- The dynamic-image computation of `ComputePipeline::HwlInit`
(gfx9ComputePipeline.cpp lines 286-335) on the register values decoded from
the ELF (`d0`): with `wavesPerGroup = RoundUpQuotient(x*y*z, 64)`, set
SIMD_DEST_CNTL to 1 iff `wavesPerGroup` is a multiple of 4; force
FORCE_SIMD_DIST when `(numShaderArrays * numCuPerSh) & 0x3` is nonzero and
`wavesPerGroup == 1`; set TRAP_PRESENT under the legacy-HWS trap handler on
gfx9; clamp LOCK_THRESHOLD (`csLockThreshold >> 2`, max `252 >> 2`); then
apply the SIMD_DEST_CNTL override setting. -/
def hwlInitDynamic (chip : GpuChipProps) (settings : Gfx9Settings)
    (legacyTrapHandler isGfx9 : Bool) (threadsX threadsY threadsZ : Nat)
    (d0 : DynamicCmdsImage) : DynamicCmdsImage :=
  let wavesPerGroup := roundUpQuotient (threadsX * threadsY * threadsZ) 64
  let d1 := { d0 with resourceLimits := { d0.resourceLimits with
    simdDestCntl := if wavesPerGroup % 4 = 0 then 1 else 0 } }
  let d2 :=
    if (chip.numShaderArrays * chip.numCuPerSh) &&& 3 ≠ 0 ∧ wavesPerGroup = 1 then
      { d1 with resourceLimits := { d1.resourceLimits with forceSimdDist := 1 } }
    else d1
  let d3 :=
    if legacyTrapHandler = true ∧ isGfx9 = true then
      { d2 with pgmRsrc2 := { d2.pgmRsrc2 with trapPresent := 1 } }
    else d2
  let d4 := { d3 with resourceLimits := { d3.resourceLimits with
    lockThreshold := min (settings.csLockThreshold >>> 2)
      (Gfx9MaxLockThreshold >>> 2) } }
  match settings.csSimdDestCntl with
  | CsSimdDestCntlSetting.force1 =>
      { d4 with resourceLimits := { d4.resourceLimits with simdDestCntl := 1 } }
  | CsSimdDestCntlSetting.force0 =>
      { d4 with resourceLimits := { d4.resourceLimits with simdDestCntl := 0 } }
  | CsSimdDestCntlSetting.default => d4

/-- C8 counterexample: on a chip with 4 shader arrays of 3 (an odd number of)
compute units each, one wave per thread group (64 threads) does NOT force the
distribution-override bit, because the source tests
`(numShaderArrays * numCuPerSh) & 0x3` — here `12 & 3 = 0` — not the parity
of the per-shader-array compute-unit count as the claim states. -/
theorem simd_dist_heuristic_cex :
    (hwlInitDynamic ⟨4, 10, 3, 4⟩ ⟨0, CsSimdDestCntlSetting.default⟩ false true
        64 1 1 ⟨0, ⟨0, 0, 0⟩, 0, ⟨0, 0, 0, 0, 0, 0⟩⟩).resourceLimits.forceSimdDist
      = 0 ∧
    (3 : Nat) % 2 = 1 ∧
    roundUpQuotient (64 * 1 * 1) 64 = 1 ∧
    (0 : Nat) ≠ 1 := by
  decide

/-- C8 (amended): in the compiled dynamic packet image, if waves-per-group is
1 and the TOTAL per-shader-engine compute-unit count
(`numShaderArrays * numCuPerSh`) is not a multiple of 4, FORCE_SIMD_DIST is
forced to 1; and when the SIMD-destination override setting is at its
default, SIMD_DEST_CNTL is 1 iff waves-per-group is a multiple of 4,
regardless of compute-unit-count parity. -/
theorem simd_dist_heuristic (chip : GpuChipProps) (settings : Gfx9Settings)
    (legacy isGfx9 : Bool) (tx ty tz : Nat) (d0 : DynamicCmdsImage) :
    (roundUpQuotient (tx * ty * tz) 64 = 1 →
      (chip.numShaderArrays * chip.numCuPerSh) % 4 ≠ 0 →
      (hwlInitDynamic chip settings legacy isGfx9 tx ty tz
        d0).resourceLimits.forceSimdDist = 1) ∧
    (settings.csSimdDestCntl = CsSimdDestCntlSetting.default →
      (hwlInitDynamic chip settings legacy isGfx9 tx ty tz
          d0).resourceLimits.simdDestCntl
        = if roundUpQuotient (tx * ty * tz) 64 % 4 = 0 then 1 else 0) := by
  have hb : (chip.numShaderArrays * chip.numCuPerSh) &&& 3
      = (chip.numShaderArrays * chip.numCuPerSh) % 4 := by
    simpa using
      Nat.and_pow_two_sub_one_eq_mod (chip.numShaderArrays * chip.numCuPerSh) 2
  constructor
  · intro hw hm
    simp only [hwlInitDynamic]
    rw [if_pos (show (chip.numShaderArrays * chip.numCuPerSh) &&& 3 ≠ 0
        ∧ roundUpQuotient (tx * ty * tz) 64 = 1 from ⟨by rw [hb]; exact hm, hw⟩)]
    rcases settings with ⟨lock, sd⟩
    by_cases hl : legacy = true ∧ isGfx9 = true
    · rw [if_pos hl]
      cases sd <;> rfl
    · rw [if_neg hl]
      cases sd <;> rfl
  · intro hsd
    rcases settings with ⟨lock, sd⟩
    simp only at hsd
    subst hsd
    simp only [hwlInitDynamic]
    by_cases hd2 : (chip.numShaderArrays * chip.numCuPerSh) &&& 3 ≠ 0
        ∧ roundUpQuotient (tx * ty * tz) 64 = 1
    · rw [if_pos hd2]
      by_cases hl : legacy = true ∧ isGfx9 = true
      · rw [if_pos hl]
      · rw [if_neg hl]
    · rw [if_neg hd2]
      by_cases hl : legacy = true ∧ isGfx9 = true
      · rw [if_pos hl]
      · rw [if_neg hl]

/-- C8 witness: the amended theorem on a chip with one shader array of 3
compute units (total 3, not a multiple of 4) and a 64-thread group: the
distribution override is forced and, with 1 wave per group (not a multiple of
4), SIMD_DEST_CNTL is 0. -/
theorem simd_dist_heuristic_witness :
    (hwlInitDynamic ⟨4, 10, 3, 1⟩ ⟨0, CsSimdDestCntlSetting.default⟩ false true
        64 1 1 ⟨0, ⟨0, 0, 0⟩, 0, ⟨0, 0, 0, 0, 0, 0⟩⟩).resourceLimits.forceSimdDist
      = 1 ∧
    (hwlInitDynamic ⟨4, 10, 3, 1⟩ ⟨0, CsSimdDestCntlSetting.default⟩ false true
        64 1 1 ⟨0, ⟨0, 0, 0⟩, 0, ⟨0, 0, 0, 0, 0, 0⟩⟩).resourceLimits.simdDestCntl
      = 0 :=
  ⟨(simd_dist_heuristic ⟨4, 10, 3, 1⟩ ⟨0, CsSimdDestCntlSetting.default⟩ false
      true 64 1 1 ⟨0, ⟨0, 0, 0⟩, 0, ⟨0, 0, 0, 0, 0, 0⟩⟩).1 (by decide) (by decide),
   ((simd_dist_heuristic ⟨4, 10, 3, 1⟩ ⟨0, CsSimdDestCntlSetting.default⟩ false
      true 64 1 1 ⟨0, ⟨0, 0, 0⟩, 0, ⟨0, 0, 0, 0, 0, 0⟩⟩).2 rfl).trans (by decide)⟩

end Pal
